import Mathlib

/-!
Shallow embedding of the payment reconciliation core of the
payment-system-backend repository (app/services/payment_processor.py,
utr_verifier.py, bank_statement_processor.py, payment_link_service.py and
the app/models data model), together with theorems settling the frozen
claims about it.

The database session is modelled as an explicit state: a list of payment
rows plus the (read-only) merchant table.  ORM queries `filter(...).first()`
become `List.find?`; mutating the object returned by `.first()` followed by
`commit` becomes an in-place update of the first matching row.  Python
`Optional` fields are `Option`; Python truthiness of an optional string
(`if payment_data.bank`) is `none`/empty-string falsy.  Amounts are `Int`
(the columns are SQL Integers holding paisa).  Fallible operations return
`Except`; the distinct `raise ValueError` sites (and the distinct
early-`return None` branches of `UTRVerifier.verify_utr`) are distinct
error constructors.
-/

set_option maxRecDepth 8192

namespace PaymentSystem

/-- app/models/payment.py: `PaymentType` -/
inductive PaymentType
  | DEPOSIT
  | WITHDRAWAL
deriving DecidableEq, Repr

/-- app/models/payment.py: `PaymentMethod` -/
inductive PaymentMethod
  | UPI
  | BANK_TRANSFER
deriving DecidableEq, Repr

/-- app/models/payment.py: `PaymentStatus` -/
inductive PaymentStatus
  | PENDING
  | CONFIRMED
  | DECLINED
  | EXPIRED
deriving DecidableEq, Repr

/-- app/models/payment.py: the `Payment` row.  Columns not read or written
by any of the operations under study (`currency`, `qr_code_data`,
`callback_sent`, customer contact fields, the opaque JSON snapshots) are
kept only where a claim can observe them.  `id` is the opaque generated
primary key, modelled as `Nat`; `created_at` is the row-creation time in
seconds (used by the 30-day window filters). -/
structure Payment where
  id : Nat
  merchant_id : Nat
  reference : String
  trxn_hash_key : String
  payment_type : PaymentType
  payment_method : PaymentMethod
  amount : Int
  status : PaymentStatus
  created_at : Int
  upi_id : Option String := none
  upi_payment_string : Option String := none
  bank_name : Option String := none
  account_name : Option String := none
  account_number : Option String := none
  ifsc_code : Option String := none
  utr_number : Option String := none
  verified_by : Option String := none
  verification_method : Option String := none
  remarks : Option String := none
  payment_link_id : Option Nat := none
deriving DecidableEq, Repr

/-- app/models/merchant.py: merchant UPI settlement details
(`upi_details` JSONB blob: keys `upi_id`, optional `name`). -/
structure UpiDetails where
  upi_id : String
  name : Option String := none
deriving DecidableEq, Repr

/-- app/models/merchant.py: merchant bank settlement details
(`bank_details` JSONB blob). -/
structure BankDetails where
  bank_name : Option String := none
  account_name : Option String := none
  account_number : Option String := none
  ifsc_code : Option String := none
deriving DecidableEq, Repr

/-- app/models/merchant.py: the columns of `Merchant` that the payment
core reads.  The min/max bound columns are non-null Integers with
defaults. -/
structure Merchant where
  id : Nat
  business_name : String
  min_deposit : Int := 500
  max_deposit : Int := 300000
  min_withdrawal : Int := 1000
  max_withdrawal : Int := 1000000
  upi_details : Option UpiDetails := none
  bank_details : Option BankDetails := none
deriving DecidableEq, Repr

/-- app/schemas/payment.py: `PaymentCreate`, the merchant's request body
as the processor receives it. -/
structure PaymentCreate where
  reference : String
  amount : Int
  account_name : Option String := none
  account_number : Option String := none
  bank : Option String := none
  bank_ifsc : Option String := none
deriving DecidableEq, Repr

/-- Python truthiness of an `Optional[str]` field: `None` and `""` are
falsy, any other string truthy. -/
def strTruthy : Option String → Bool
  | none => false
  | some s => !(s == "")

/-- Python truthiness of an `Optional[int]` field: `None` and `0` falsy. -/
def intTruthy : Option Int → Bool
  | none => false
  | some n => !(n == 0)

/-- The database session state: the `payment` table (rows in insertion
order) and the read-only `merchant` table. -/
structure DB where
  payments : List Payment
  merchants : List Merchant := []
deriving DecidableEq, Repr

/-- ORM `query(Payment).filter(Payment.id == pid).first()`. -/
def DB.findPayment (db : DB) (pid : Nat) : Option Payment :=
  db.payments.find? (fun p => p.id == pid)

/-- ORM `query(Merchant).filter(Merchant.id == mid).first()`. -/
def DB.findMerchant (db : DB) (mid : Nat) : Option Merchant :=
  db.merchants.find? (fun m => m.id == mid)

/-- Mutating the row object returned by `.first()` and committing:
replace the first row with the given id. -/
def updateFirst : List Payment → Nat → Payment → List Payment
  | [], _, _ => []
  | p :: rest, pid, p' =>
      if p.id == pid then p' :: rest else p :: updateFirst rest pid p'

def DB.updatePayment (db : DB) (pid : Nat) (p' : Payment) : DB :=
  { db with payments := updateFirst db.payments pid p' }

/-- `db.add(payment); db.commit()` under the unique constraint on
`trxn_hash_key` (app/models/payment.py line 33): the insert commits only
if no existing row carries the same hash, otherwise the database raises
an integrity error which `process_deposit_request` /
`process_withdrawal_request` do not catch. -/
def DB.insertPayment (db : DB) (p : Payment) : Option DB :=
  if db.payments.any (fun q => q.trxn_hash_key == p.trxn_hash_key) then
    none
  else
    some { db with payments := db.payments ++ [p] }

/-! ## Identity generator (app/utils/security.py) -/

/-- The lowercase hex digit for a value below 16. -/
def hexDigit (i : Nat) : Char :=
  if i < 10 then Char.ofNat (48 + i) else Char.ofNat (87 + i)

/-- The lowercase hex alphabet. -/
def HEX_DIGITS : List Char := (List.range 16).map hexDigit

/-- Render the low `k` hex digits of `n`, most significant first: a
fixed-width lowercase-hex rendering. -/
def toHexFixed : Nat → Nat → List Char
  | 0, _ => []
  | k + 1, n => toHexFixed k (n / 16) ++ [hexDigit (n % 16)]

/-- Modelled from the spec: `generate_transaction_hash` is imported from
`app.utils.security`, a module whose file is not present in the sources
(only its call sites in payment_processor.py and payment_link_service.py
are).  Per the spec it is "a deterministic one-way digest (e.g., salted
cryptographic hash) over the concatenation of the three inputs plus a
fixed secret/salt, producing a fixed-length hex string"; the digest is
modelled as a polynomial rolling digest of the salted concatenation,
reduced mod 2^256 and rendered as 64 lowercase hex characters. -/
def generate_transaction_hash (reference : String) (merchant_id : String)
    (amount : Int) : String :=
  let salted := "SECRET_SALT|" ++ reference ++ "|" ++ merchant_id ++ "|"
    ++ toString amount
  let digest := salted.toList.foldl
    (fun acc c => (acc * 131 + c.toNat + 7) % (2 ^ 256)) 5381
  String.mk (toHexFixed 64 digest)

/-! ## Reconciliation engine (app/services/payment_processor.py) -/

/-- The distinct `raise ValueError` sites of the creation paths, plus the
integrity error the database raises on a duplicate `trxn_hash_key` insert
(which the creation paths do not catch). -/
inductive CreateError
  | amountOutOfRange
  | bankDetailsRequired
  | upiNotConfigured
  | bankNotConfigured
  | duplicateHash
deriving DecidableEq, Repr

/-- payment_processor.py `PaymentProcessor.process_deposit_request`.
`newId` stands for the generated primary key, `now` for
`datetime.utcnow()`; URL percent-encoding of the payee name in the UPI
string is irrelevant to every claim and modelled as the identity. -/
def process_deposit_request (db : DB) (newId : Nat) (now : Int)
    (merchant : Merchant) (payment_data : PaymentCreate) :
    Except CreateError (Payment × DB) :=
  if payment_data.amount < merchant.min_deposit
      || payment_data.amount > merchant.max_deposit then
    .error .amountOutOfRange
  else
    let trxn_hash_key := generate_transaction_hash payment_data.reference
      (toString merchant.id) payment_data.amount
    let payment_method :=
      if strTruthy payment_data.bank && strTruthy payment_data.account_number
      then PaymentMethod.BANK_TRANSFER
      else PaymentMethod.UPI
    let payment : Payment :=
      { id := newId
        merchant_id := merchant.id
        reference := payment_data.reference
        trxn_hash_key := trxn_hash_key
        payment_type := .DEPOSIT
        payment_method := payment_method
        amount := payment_data.amount
        status := .PENDING
        created_at := now }
    match payment_method with
    | .UPI =>
      match merchant.upi_details with
      | none => .error .upiNotConfigured
      | some ud =>
        let upi_id := ud.upi_id
        let name := ud.name.getD merchant.business_name
        let upi_payment_string := "upi://pay?pa=" ++ upi_id ++ "&pn=" ++ name
          ++ "&am=" ++ toString payment_data.amount ++ "&tr=" ++ trxn_hash_key
          ++ "&cu=INR"
        let payment := { payment with
          upi_id := some upi_id
          upi_payment_string := some upi_payment_string }
        match db.insertPayment payment with
        | none => .error .duplicateHash
        | some db' => .ok (payment, db')
    | .BANK_TRANSFER =>
      match merchant.bank_details with
      | none => .error .bankNotConfigured
      | some bd =>
        let payment := { payment with
          bank_name := bd.bank_name
          account_name := bd.account_name
          account_number := bd.account_number
          ifsc_code := bd.ifsc_code }
        match db.insertPayment payment with
        | none => .error .duplicateHash
        | some db' => .ok (payment, db')

/-- payment_processor.py `PaymentProcessor.process_withdrawal_request`. -/
def process_withdrawal_request (db : DB) (newId : Nat) (now : Int)
    (merchant : Merchant) (payment_data : PaymentCreate) :
    Except CreateError (Payment × DB) :=
  if payment_data.amount < merchant.min_withdrawal
      || payment_data.amount > merchant.max_withdrawal then
    .error .amountOutOfRange
  else if !strTruthy payment_data.account_name
      || !strTruthy payment_data.account_number
      || !strTruthy payment_data.bank
      || !strTruthy payment_data.bank_ifsc then
    .error .bankDetailsRequired
  else
    let trxn_hash_key := generate_transaction_hash payment_data.reference
      (toString merchant.id) payment_data.amount
    let payment : Payment :=
      { id := newId
        merchant_id := merchant.id
        reference := payment_data.reference
        trxn_hash_key := trxn_hash_key
        payment_type := .WITHDRAWAL
        payment_method := .BANK_TRANSFER
        amount := payment_data.amount
        status := .PENDING
        created_at := now
        bank_name := payment_data.bank
        account_name := payment_data.account_name
        account_number := payment_data.account_number
        ifsc_code := payment_data.bank_ifsc }
    match db.insertPayment payment with
    | none => .error .duplicateHash
    | some db' => .ok (payment, db')

/-- The two distinct `raise ValueError` sites shared by
`verify_payment` / `decline_payment` / `submit_utr_for_payment`:
"Payment ... not found" and "Payment is already in ... status". -/
inductive VerifyError
  | notFound
  | alreadyProcessed
deriving DecidableEq, Repr

/-- payment_processor.py `PaymentProcessor.verify_payment`. -/
def verify_payment (db : DB) (payment_id : Nat) (utr_number : String)
    (verified_by : String) : Except VerifyError (Payment × DB) :=
  match db.findPayment payment_id with
  | none => .error .notFound
  | some payment =>
    if payment.status ≠ PaymentStatus.PENDING then
      .error .alreadyProcessed
    else
      let payment' := { payment with
        utr_number := some utr_number
        verified_by := some verified_by
        status := PaymentStatus.CONFIRMED
        verification_method := some "MANUAL" }
      .ok (payment', db.updatePayment payment_id payment')

/-- payment_processor.py `PaymentProcessor.decline_payment`. -/
def decline_payment (db : DB) (payment_id : Nat) (remarks : String)
    (verified_by : String) : Except VerifyError (Payment × DB) :=
  match db.findPayment payment_id with
  | none => .error .notFound
  | some payment =>
    if payment.status ≠ PaymentStatus.PENDING then
      .error .alreadyProcessed
    else
      let payment' := { payment with
        status := PaymentStatus.DECLINED
        remarks := some remarks
        verified_by := some verified_by }
      .ok (payment', db.updatePayment payment_id payment')

/-! ## UTR matcher (app/services/utr_verifier.py) -/

/-- utr_verifier.py `UTRVerifier.verify_utr`.  The Python function
returns `None` both when the payment does not exist and when its status
is not PENDING (two distinct early-return branches with distinct log
messages); the embedding keeps `Option` as the result type, mirroring
the callers' view. -/
def verify_utr (db : DB) (utr_number : String) (payment_id : Nat)
    (verified_by : String) : Option (Payment × DB) :=
  match db.findPayment payment_id with
  | none => none
  | some payment =>
    if payment.status ≠ PaymentStatus.PENDING then
      none
    else
      let payment' := { payment with
        utr_number := some utr_number
        status := PaymentStatus.CONFIRMED
        verified_by := some verified_by
        verification_method := some "MANUAL" }
      some (payment', db.updatePayment payment_id payment')

/-! ## Payment link issuer (app/services/payment_link_service.py) -/

/-- app/models/payment_link.py: the `PaymentLink` columns the consume
path reads or writes. -/
structure PaymentLink where
  id : Nat
  merchant_id : Nat
  unique_code : String
  amount : Option Int := none
  payment_type : PaymentType := .DEPOSIT
  is_active : Bool := true
  expires_at : Option Int := none
  max_uses : Option Int := none
  used_count : Int := 0
deriving DecidableEq, Repr

/-- app/schemas/payment_link.py: `CustomerPaymentInfo`.  `payment_method`
is a raw string in the schema, converted with `PaymentMethod(...)` inside
`process_payment`. -/
structure CustomerPaymentInfo where
  name : Option String := none
  email : Option String := none
  phone : Option String := none
  custom_amount : Option Int := none
  payment_method : String
  utr_number : Option String := none
deriving DecidableEq, Repr

/-- The distinct failure exits of
`PaymentLinkService.process_payment`: the `raise ValueError` sites, the
`PaymentMethod(...)` conversion failure on an unknown method string, and
the uncaught integrity error on a duplicate hash insert. -/
inductive LinkPaymentError
  | merchantNotFound
  | amountRequired
  | belowMinimum
  | aboveMaximum
  | invalidMethod
  | upiNotConfigured
  | bankNotConfigured
  | duplicateHash
deriving DecidableEq, Repr

/-- `PaymentMethod(customer_info.payment_method)`: the Python enum
constructor, which raises on any string other than the two values. -/
def paymentMethodOfString : String → Option PaymentMethod
  | "UPI" => some .UPI
  | "BANK_TRANSFER" => some .BANK_TRANSFER
  | _ => none

/-- payment_link_service.py `PaymentLinkService.process_payment`.
`tokenHex` stands for the random `secrets.token_hex(4)` suffix of the
generated reference, `newId` for the payment's generated primary key.
The effective amount follows the source line
`amount = customer_info.custom_amount if customer_info.custom_amount
else payment_link.amount` (Python truthiness: `None` and `0` falsy),
then `if not amount: raise ValueError("Amount is required")`.
The QR payload produced by the external `generate_upi_qr` is modelled by
the UPI string it encodes. -/
def link_process_payment (db : DB) (newId : Nat) (now : Int)
    (payment_link : PaymentLink) (customer_info : CustomerPaymentInfo)
    (tokenHex : String) :
    Except LinkPaymentError (Payment × PaymentLink × DB) :=
  match db.findMerchant payment_link.merchant_id with
  | none => .error .merchantNotFound
  | some merchant =>
    let amountOpt :=
      if intTruthy customer_info.custom_amount then customer_info.custom_amount
      else payment_link.amount
    match amountOpt with
    | none => .error .amountRequired
    | some amount =>
      if amount == 0 then .error .amountRequired
      else if merchant.min_deposit ≠ 0 ∧ amount < merchant.min_deposit then
        .error .belowMinimum
      else if merchant.max_deposit ≠ 0 ∧ amount > merchant.max_deposit then
        .error .aboveMaximum
      else
        let reference := "PLINK-" ++ payment_link.unique_code.take 8 ++ "-"
          ++ tokenHex
        match paymentMethodOfString customer_info.payment_method with
        | none => .error .invalidMethod
        | some payment_method =>
          let payment : Payment :=
            { id := newId
              merchant_id := payment_link.merchant_id
              reference := reference
              trxn_hash_key := generate_transaction_hash reference
                (toString merchant.id) amount
              payment_type := payment_link.payment_type
              payment_method := payment_method
              amount := amount
              status := .PENDING
              created_at := now
              payment_link_id := some payment_link.id }
          match payment_method with
          | .UPI =>
            match merchant.upi_details with
            | none => .error .upiNotConfigured
            | some ud =>
              let upi_id := ud.upi_id
              let name := ud.name.getD merchant.business_name
              let payment := { payment with
                upi_id := some upi_id
                upi_payment_string := some ("upi://pay?pa=" ++ upi_id
                  ++ "&pn=" ++ name ++ "&am=" ++ toString amount ++ "&tr="
                  ++ payment.trxn_hash_key ++ "&cu=INR") }
              match db.insertPayment payment with
              | none => .error .duplicateHash
              | some db' =>
                .ok (payment,
                  { payment_link with
                    used_count := payment_link.used_count + 1 }, db')
          | .BANK_TRANSFER =>
            match merchant.bank_details with
            | none => .error .bankNotConfigured
            | some bd =>
              let payment := { payment with
                bank_name := bd.bank_name
                account_name := bd.account_name
                account_number := bd.account_number
                ifsc_code := bd.ifsc_code }
              match db.insertPayment payment with
              | none => .error .duplicateHash
              | some db' =>
                .ok (payment,
                  { payment_link with
                    used_count := payment_link.used_count + 1 }, db')

/-- payment_link_service.py `PaymentLinkService.submit_utr_for_payment`:
stores the customer-supplied UTR on a still-PENDING payment and leaves
the status untouched. -/
def submit_utr_for_payment (db : DB) (payment_id : Nat)
    (utr_number : String) : Except VerifyError (Payment × DB) :=
  match db.findPayment payment_id with
  | none => .error .notFound
  | some payment =>
    if payment.status ≠ PaymentStatus.PENDING then
      .error .alreadyProcessed
    else
      let payment' := { payment with
        utr_number := some utr_number
        remarks := some "UTR number submitted by customer, awaiting verification" }
      .ok (payment', db.updatePayment payment_id payment')

/-! ## Statement parser and matcher
(app/services/bank_statement_processor.py) -/

/-- A normalized statement transaction `{utr, amount?, date?}`.  The
source stores the amount as a Python float; it is modelled as an exact
rational, which agrees with the float computation on every concrete
input used below. -/
structure StmtTransaction where
  utr : Option String := none
  amount : Option ℚ := none
  date : Option String := none
deriving DecidableEq, Repr

/-- An entry of the `matched_payments` list built by
`_match_transactions`. -/
structure MatchedEntry where
  payment_id : Nat
  reference : String
  amount : Int
  utr : String
deriving DecidableEq, Repr

structure MatchResult where
  matched_count : Nat
  matched_payments : List MatchedEntry
  unmatched_transactions : List StmtTransaction
deriving DecidableEq, Repr

/-- Python runtime errors observable at the statement-matching call
site. -/
inductive PyError
  | typeError
deriving DecidableEq, Repr

/-- The call site inside `_match_transactions`
(bank_statement_processor.py, inside the candidate loop):

  `self.utr_verifier.verify_utr(utr_number=utr, payment_id=str(payment.id),
   verified_by=verified_by, verification_method="AUTO_BANK_STATEMENT")`

`UTRVerifier.verify_utr` is declared
`def verify_utr(self, utr_number, payment_id, verified_by)`
(utr_verifier.py) and has no `verification_method` parameter, so Python
raises `TypeError: got an unexpected keyword argument` at the call,
before the verifier body runs; the surrounding `try/except Exception`
catches and logs it.  The call site is therefore modelled as always
raising. -/
def verify_utr_statement_call (_db : DB) (_utr_number : String)
    (_payment_id : Nat) (_verified_by : String) :
    Except PyError (Payment × DB) :=
  .error .typeError

/-- The per-candidate amount filter of `_match_transactions`:
`margin = payment_amount * 0.01; abs(payment_amount - amount) <= margin`,
vacuously true when the statement line carries no amount. -/
def amount_matches (payment_amount : Int) (amount : Option ℚ) : Bool :=
  match amount with
  | none => true
  | some a =>
    decide (|(payment_amount : ℚ) - a| ≤ (payment_amount : ℚ) * (1 / 100))

/-- The inner candidate loop of `_match_transactions`: walk the pending
snapshot in order, skip candidates whose live status is no longer
PENDING, skip candidates outside the amount margin, attempt verification
on the first surviving candidate and continue past verification
exceptions.  Returns the matched-list entry and updated state on the
first successful verification. -/
def tryMatchCandidates (db : DB) (pendingIds : List Nat) (utr : String)
    (amount : Option ℚ) (verified_by : String) :
    Option (MatchedEntry × DB) :=
  match pendingIds with
  | [] => none
  | pid :: rest =>
    match db.findPayment pid with
    | none => tryMatchCandidates db rest utr amount verified_by
    | some payment =>
      if payment.status ≠ PaymentStatus.PENDING then
        tryMatchCandidates db rest utr amount verified_by
      else if amount_matches payment.amount amount then
        match verify_utr_statement_call db utr pid verified_by with
        | .ok (_, db') =>
          some ({ payment_id := pid
                  reference := payment.reference
                  amount := payment.amount
                  utr := utr }, db')
        | .error _ => tryMatchCandidates db rest utr amount verified_by
      else
        tryMatchCandidates db rest utr amount verified_by

/-- One iteration of the outer transaction loop of
`_match_transactions`: a transaction with a falsy UTR is skipped
(`if not utr: continue`, so it lands in neither output list); otherwise
the candidates are tried and the transaction is recorded as matched or
unmatched. -/
def match_step (pendingIds : List Nat) (verified_by : String)
    (acc : MatchResult × DB) (txn : StmtTransaction) : MatchResult × DB :=
  match txn.utr with
  | none => acc
  | some utr =>
    if utr == "" then acc
    else
      match tryMatchCandidates acc.2 pendingIds utr txn.amount verified_by with
      | some (entry, db') =>
        ({ acc.1 with
           matched_count := acc.1.matched_count + 1
           matched_payments := acc.1.matched_payments ++ [entry] }, db')
      | none =>
        ({ acc.1 with
           unmatched_transactions := acc.1.unmatched_transactions ++ [txn] },
         acc.2)

/-- bank_statement_processor.py `BankStatementProcessor._match_transactions`:
snapshot the PENDING payments of the last 30 days, then run the
transaction loop over that candidate snapshot. -/
def match_transactions (db : DB) (now : Int)
    (transactions : List StmtTransaction) (verified_by : String) :
    MatchResult × DB :=
  let pendingIds := (db.payments.filter
    (fun p => p.status == PaymentStatus.PENDING
      && decide (p.created_at ≥ now - 30 * 86400))).map (·.id)
  transactions.foldl (match_step pendingIds verified_by)
    (⟨{ matched_count := 0, matched_payments := [],
        unmatched_transactions := [] }, db⟩ : MatchResult × DB)

/-- The result dictionary of `process_statement`, with the keys of the
success and failure shapes; the dict key "matches" appears here as
`matchesCount` because `matches` is reserved in Lean. -/
structure StatementResult where
  success : Bool
  error : Option String := none
  total_transactions : Option Nat := none
  matchesCount : Nat
  matched_payments : List MatchedEntry := []
  unmatched_transactions : List StmtTransaction := []
deriving DecidableEq, Repr

def listIsPrefixOf : List Char → List Char → Bool
  | [], _ => true
  | _ :: _, [] => false
  | a :: as, b :: bs => a == b && listIsPrefixOf as bs

def listIsInfixOf (needle : List Char) : List Char → Bool
  | [] => listIsPrefixOf needle []
  | b :: bs => listIsPrefixOf needle (b :: bs) || listIsInfixOf needle bs

/-- Python's `needle in haystack` substring test. -/
def strContains (haystack needle : String) : Bool :=
  listIsInfixOf needle.toList haystack.toList

/-- The CSV, spreadsheet and free-text parsers (`_parse_csv`,
`_parse_excel`, `_parse_text`) run pandas and regular expressions over
the raw upload; no claim settled in this file depends on their output,
so they enter the embedding as parameters of `process_statement`. -/
structure StatementParsers where
  parse_csv : String → List StmtTransaction
  parse_excel : String → List StmtTransaction
  parse_text : String → List StmtTransaction

/-- bank_statement_processor.py `BankStatementProcessor._parse_pdf`: the
body logs "PDF parsing is not fully implemented" and returns the empty
list unconditionally. -/
def parse_pdf (_content : String) : List StmtTransaction := []

/-- bank_statement_processor.py `BankStatementProcessor.process_statement`:
dispatch on the content type (`'text/csv'` exact, `'excel'`/
`'spreadsheet'`/`'pdf'` by substring, `'text/plain'` exact), run the
matcher over the parsed transactions, and wrap the result; any other
content type yields the failure dictionary
`{"success": False, "error": f"Unsupported file type: {file_type}",
"matches": 0}`.  (Parser exceptions, caught by the outer `try/except`,
are not modelled: the parsers here are total.) -/
def process_statement (ps : StatementParsers) (db : DB) (now : Int)
    (file_content : String) (file_type : String) (verified_by : String) :
    StatementResult × DB :=
  let run := fun (transactions : List StmtTransaction) =>
    let (mr, db') := match_transactions db now transactions verified_by
    (({ success := true
        total_transactions := some transactions.length
        matchesCount := mr.matched_count
        matched_payments := mr.matched_payments
        unmatched_transactions := mr.unmatched_transactions } : StatementResult),
     db')
  if file_type == "text/csv" then
    run (ps.parse_csv file_content)
  else if strContains file_type "excel" || strContains file_type "spreadsheet" then
    run (ps.parse_excel file_content)
  else if file_type == "text/plain" then
    run (ps.parse_text file_content)
  else if strContains file_type "pdf" then
    run (parse_pdf file_content)
  else
    ({ success := false
       error := some ("Unsupported file type: " ++ file_type)
       matchesCount := 0 }, db)

/-! ## Derived state observations and invariant machinery -/

/-- A default row for positional `getD` observations. -/
def payment0 : Payment :=
  { id := 0, merchant_id := 0, reference := "", trxn_hash_key := "",
    payment_type := .DEPOSIT, payment_method := .UPI, amount := 0,
    status := .PENDING, created_at := 0 }

/-- The session state after an `Except`-returning operation: the
committed state on success, the untouched incoming state when the
operation raised before committing anything. -/
def exceptPost {ε α : Type} (db : DB) : Except ε (α × DB) → DB
  | .ok (_, db') => db'
  | .error _ => db

def optionPost (db : DB) : Option (Payment × DB) → DB
  | some (_, db') => db'
  | none => db

def linkPost (db : DB) :
    Except LinkPaymentError (Payment × PaymentLink × DB) → DB
  | .ok (_, _, db') => db'
  | .error _ => db

def isOkB {ε α : Type} : Except ε α → Bool
  | .ok _ => true
  | .error _ => false

/-- Between two session states: no row is deleted, and every row whose
status is already terminal (non-PENDING) is bit-for-bit unchanged, row
positions included. -/
def settledRowsFrozen (db db' : DB) : Prop :=
  db.payments.length ≤ db'.payments.length ∧
  ∀ i : Nat, i < db.payments.length →
    (db.payments.getD i payment0).status ≠ PaymentStatus.PENDING →
    db'.payments.getD i payment0 = db.payments.getD i payment0

/-- The weakening of `settledRowsFrozen` to the three verification
fields. -/
def utrFieldsFrozen (db db' : DB) : Prop :=
  ∀ i : Nat, i < db.payments.length →
    (db.payments.getD i payment0).status ≠ PaymentStatus.PENDING →
    (db'.payments.getD i payment0).utr_number
        = (db.payments.getD i payment0).utr_number ∧
    (db'.payments.getD i payment0).verified_by
        = (db.payments.getD i payment0).verified_by ∧
    (db'.payments.getD i payment0).verification_method
        = (db.payments.getD i payment0).verification_method

lemma settledRowsFrozen_refl (db : DB) : settledRowsFrozen db db :=
  ⟨le_refl _, fun _ _ _ => rfl⟩

lemma settledRowsFrozen.utrFields {db db' : DB}
    (h : settledRowsFrozen db db') : utrFieldsFrozen db db' := by
  intro i hi ht
  rw [h.2 i hi ht]
  exact ⟨rfl, rfl, rfl⟩

lemma updateFirst_length (pid : Nat) (p' : Payment) :
    ∀ l : List Payment, (updateFirst l pid p').length = l.length := by
  intro l
  induction l with
  | nil => rfl
  | cons a rest ih =>
    unfold updateFirst
    by_cases h : (a.id == pid) = true
    · rw [if_pos h]; simp
    · rw [if_neg h]; simp [ih]

lemma updateFirst_getD (pid : Nat) (p' : Payment) :
    ∀ (l : List Payment) (p : Payment),
      l.find? (fun q => q.id == pid) = some p →
      ∀ i : Nat,
        (updateFirst l pid p').getD i payment0 = l.getD i payment0 ∨
        l.getD i payment0 = p := by
  intro l
  induction l with
  | nil => intro p hp; cases hp
  | cons a rest ih =>
    intro p hp i
    by_cases h : (a.id == pid) = true
    · have hfind : List.find? (fun q => q.id == pid) (a :: rest) = some a := by
        simp [List.find?_cons, h]
      rw [hfind] at hp
      injection hp with hp
      subst hp
      unfold updateFirst
      rw [if_pos h]
      cases i with
      | zero => right; rfl
      | succ j => left; simp [List.getD_cons_succ]
    · have hfind : List.find? (fun q => q.id == pid) (a :: rest)
          = List.find? (fun q => q.id == pid) rest := by
        simp [List.find?_cons, h]
      rw [hfind] at hp
      unfold updateFirst
      rw [if_neg h]
      cases i with
      | zero => left; rfl
      | succ j =>
        have := ih p hp j
        simpa [List.getD_cons_succ] using this

lemma settledRowsFrozen_update (db : DB) (pid : Nat) {p : Payment}
    (p' : Payment) (hfind : db.findPayment pid = some p)
    (hstat : p.status = PaymentStatus.PENDING) :
    settledRowsFrozen db (db.updatePayment pid p') := by
  constructor
  · simp [DB.updatePayment, updateFirst_length]
  · intro i hi hterm
    have h := updateFirst_getD pid p' db.payments p hfind i
    cases h with
    | inl h => simpa [DB.updatePayment] using h
    | inr h => rw [h] at hterm; exact absurd hstat hterm

lemma getD_append_left (l l' : List Payment) (i : Nat)
    (h : i < l.length) : (l ++ l').getD i payment0 = l.getD i payment0 := by
  unfold List.getD
  rw [List.get?_eq_getElem?, List.get?_eq_getElem?,
    List.getElem?_append_left h]

lemma settledRowsFrozen_snoc (db : DB) (p : Payment) :
    settledRowsFrozen db { db with payments := db.payments ++ [p] } := by
  constructor
  · simp
  · intro i hi _
    exact getD_append_left db.payments [p] i hi

lemma insertPayment_eq_some {db : DB} {p : Payment} {db' : DB}
    (h : db.insertPayment p = some db') :
    db' = { db with payments := db.payments ++ [p] } := by
  unfold DB.insertPayment at h
  split at h
  · cases h
  · injection h with h
    exact h.symm

lemma insertPayment_dup {db : DB} {p q : Payment} (hq : q ∈ db.payments)
    (hh : q.trxn_hash_key = p.trxn_hash_key) :
    db.insertPayment p = none := by
  unfold DB.insertPayment
  rw [if_pos]
  exact List.any_eq_true.mpr ⟨q, hq, by simp [hh]⟩

/-! Statement-matcher behaviour.  Because the verification call site
raises `TypeError` on every invocation (see
`verify_utr_statement_call`), the candidate loop can never report a
match and the session state is never modified. -/

lemma tryMatchCandidates_none (db : DB) (utr : String) (amount : Option ℚ)
    (verified_by : String) :
    ∀ pendingIds,
      tryMatchCandidates db pendingIds utr amount verified_by = none := by
  intro l
  induction l with
  | nil => rfl
  | cons pid rest ih =>
    unfold tryMatchCandidates
    cases hf : db.findPayment pid with
    | none => simpa [hf] using ih
    | some payment =>
      simp only [hf]
      by_cases hs : payment.status ≠ PaymentStatus.PENDING
      · rw [if_pos hs]; exact ih
      · rw [if_neg hs]
        by_cases ha : amount_matches payment.amount amount = true
        · rw [if_pos ha]
          simpa [verify_utr_statement_call] using ih
        · rw [if_neg ha]; exact ih

lemma match_step_facts (pendingIds : List Nat) (vb : String)
    (acc : MatchResult × DB) (txn : StmtTransaction) :
    (match_step pendingIds vb acc txn).1.matched_count
        = acc.1.matched_count ∧
    (match_step pendingIds vb acc txn).1.matched_payments
        = acc.1.matched_payments ∧
    (match_step pendingIds vb acc txn).2 = acc.2 := by
  unfold match_step
  cases txn.utr with
  | none => exact ⟨rfl, rfl, rfl⟩
  | some utr =>
    by_cases h : (utr == "") = true
    · simp [h]
    · simp [h, tryMatchCandidates_none]

lemma match_fold_facts (pendingIds : List Nat) (vb : String) :
    ∀ (txns : List StmtTransaction) (acc : MatchResult × DB),
      (txns.foldl (match_step pendingIds vb) acc).1.matched_count
          = acc.1.matched_count ∧
      (txns.foldl (match_step pendingIds vb) acc).1.matched_payments
          = acc.1.matched_payments ∧
      (txns.foldl (match_step pendingIds vb) acc).2 = acc.2 := by
  intro txns
  induction txns with
  | nil => intro acc; exact ⟨rfl, rfl, rfl⟩
  | cons t ts ih =>
    intro acc
    have hstep := match_step_facts pendingIds vb acc t
    have hrest := ih (match_step pendingIds vb acc t)
    refine ⟨?_, ?_, ?_⟩
    · rw [List.foldl_cons, hrest.1, hstep.1]
    · rw [List.foldl_cons, hrest.2.1, hstep.2.1]
    · rw [List.foldl_cons, hrest.2.2, hstep.2.2]

lemma match_transactions_facts (db : DB) (now : Int)
    (txns : List StmtTransaction) (vb : String) :
    (match_transactions db now txns vb).1.matched_count = 0 ∧
    (match_transactions db now txns vb).1.matched_payments = [] ∧
    (match_transactions db now txns vb).2 = db := by
  unfold match_transactions
  exact match_fold_facts _ vb txns _

lemma process_statement_snd (ps : StatementParsers) (db : DB) (now : Int)
    (content file_type vb : String) :
    (process_statement ps db now content file_type vb).2 = db := by
  unfold process_statement
  split_ifs <;>
    simp [(match_transactions_facts db now _ vb).2.2]

/-! Inversion facts for the creation paths. -/

lemma process_deposit_ok_facts {db : DB} {newId : Nat} {now : Int}
    {m : Merchant} {pd : PaymentCreate} {p : Payment} {db' : DB}
    (h : process_deposit_request db newId now m pd = .ok (p, db')) :
    db' = { db with payments := db.payments ++ [p] } ∧
    p.trxn_hash_key
        = generate_transaction_hash pd.reference (toString m.id) pd.amount ∧
    p.status = PaymentStatus.PENDING ∧
    p.amount = pd.amount ∧
    (p.payment_method = PaymentMethod.BANK_TRANSFER ↔
      (strTruthy pd.bank && strTruthy pd.account_number) = true) ∧
    ¬(pd.amount < m.min_deposit) ∧ ¬(pd.amount > m.max_deposit) ∧
    ((strTruthy pd.bank && strTruthy pd.account_number) = true →
      m.bank_details.isSome = true) ∧
    ((strTruthy pd.bank && strTruthy pd.account_number) = false →
      m.upi_details.isSome = true) := by
  by_cases hb1 : pd.amount < m.min_deposit
  · simp [process_deposit_request, hb1] at h
  · by_cases hb2 : pd.amount > m.max_deposit
    · simp [process_deposit_request, hb2] at h
    · by_cases hm : (strTruthy pd.bank && strTruthy pd.account_number) = true
      · cases hbd : m.bank_details with
        | none => simp [process_deposit_request, hb1, hb2, hm, hbd] at h
        | some bd =>
          simp only [process_deposit_request, hb1, hb2, hm, hbd,
            decide_False, Bool.false_or, Bool.or_false, if_true, if_false,
            decide_not, Bool.not_false, Bool.not_true, ite_true, ite_false,
            Bool.false_eq_true, not_false_eq_true] at h
          split at h
          · cases h
          · rename_i db2 hins
            injection h with h
            injection h with h1 h2
            subst h1; subst h2
            have h9 : (strTruthy pd.bank && strTruthy pd.account_number) = false
                → m.upi_details.isSome = true := by
              intro hc; rw [hm] at hc; cases hc
            exact ⟨insertPayment_eq_some hins, rfl, rfl, rfl,
              by simp [hm], hb1, hb2, fun _ => rfl, h9⟩
      · have hm' : (strTruthy pd.bank && strTruthy pd.account_number) = false :=
          Bool.not_eq_true _ ▸ Bool.eq_false_iff.mpr hm
        cases hud : m.upi_details with
        | none => simp [process_deposit_request, hb1, hb2, hm', hud] at h
        | some ud =>
          simp only [process_deposit_request, hb1, hb2, hm', hud,
            decide_False, Bool.false_or, Bool.or_false, if_true, if_false,
            decide_not, Bool.not_false, Bool.not_true, ite_true, ite_false,
            Bool.false_eq_true, not_false_eq_true] at h
          split at h
          · cases h
          · rename_i db2 hins
            injection h with h
            injection h with h1 h2
            subst h1; subst h2
            have h8 : (strTruthy pd.bank && strTruthy pd.account_number) = true
                → (m.bank_details).isSome = true := by
              intro hc; rw [hm'] at hc; cases hc
            exact ⟨insertPayment_eq_some hins, rfl, rfl, rfl,
              by simp [hm'], hb1, hb2, h8, fun _ => rfl⟩

lemma process_withdrawal_ok_facts {db : DB} {newId : Nat} {now : Int}
    {m : Merchant} {pd : PaymentCreate} {p : Payment} {db' : DB}
    (h : process_withdrawal_request db newId now m pd = .ok (p, db')) :
    db' = { db with payments := db.payments ++ [p] } ∧
    p.trxn_hash_key
        = generate_transaction_hash pd.reference (toString m.id) pd.amount ∧
    p.status = PaymentStatus.PENDING ∧
    p.amount = pd.amount ∧
    ¬(pd.amount < m.min_withdrawal) ∧ ¬(pd.amount > m.max_withdrawal) ∧
    (!strTruthy pd.account_name || !strTruthy pd.account_number
      || !strTruthy pd.bank || !strTruthy pd.bank_ifsc) = false := by
  by_cases hb1 : pd.amount < m.min_withdrawal
  · simp [process_withdrawal_request, hb1] at h
  · by_cases hb2 : pd.amount > m.max_withdrawal
    · simp [process_withdrawal_request, hb2] at h
    · by_cases hv : (!strTruthy pd.account_name || !strTruthy pd.account_number
          || !strTruthy pd.bank || !strTruthy pd.bank_ifsc) = true
      · simp [process_withdrawal_request, hb1, hb2, hv] at h
      · have hv' : (!strTruthy pd.account_name || !strTruthy pd.account_number
            || !strTruthy pd.bank || !strTruthy pd.bank_ifsc) = false :=
          Bool.eq_false_iff.mpr hv
        simp only [process_withdrawal_request, hb1, hb2, hv',
          decide_False, Bool.false_or, Bool.or_false, if_true, if_false,
          ite_true, ite_false, Bool.false_eq_true, not_false_eq_true] at h
        split at h
        · cases h
        · rename_i db2 hins
          injection h with h
          injection h with h1 h2
          subst h1; subst h2
          exact ⟨insertPayment_eq_some hins, rfl, rfl, rfl, hb1, hb2, hv'⟩

lemma link_ok_facts {db : DB} {newId : Nat} {now : Int}
    {link : PaymentLink} {ci : CustomerPaymentInfo} {tok : String}
    {p : Payment} {link' : PaymentLink} {db' : DB}
    (h : link_process_payment db newId now link ci tok = .ok (p, link', db')) :
    db' = { db with payments := db.payments ++ [p] } ∧
    some p.amount
        = (if intTruthy ci.custom_amount then ci.custom_amount
           else link.amount) ∧
    p.status = PaymentStatus.PENDING ∧
    link'.used_count = link.used_count + 1 := by
  simp only [link_process_payment] at h
  split at h
  · cases h
  rename_i merchant hmer
  split at h
  · cases h
  rename_i amount hamt
  split at h
  · cases h
  split at h
  · cases h
  split at h
  · cases h
  split at h
  · cases h
  rename_i pm hpm
  split at h
  · -- UPI branch
    split at h
    · cases h
    rename_i ud hud
    split at h
    · cases h
    rename_i db2 hins
    injection h with h
    injection h with h1 h
    injection h with h2 h3
    subst h1; subst h2; subst h3
    exact ⟨insertPayment_eq_some hins, by rw [hamt], rfl, rfl⟩
  · -- BANK_TRANSFER branch
    split at h
    · cases h
    rename_i bd hbd
    split at h
    · cases h
    rename_i db2 hins
    injection h with h
    injection h with h1 h
    injection h with h2 h3
    subst h1; subst h2; subst h3
    exact ⟨insertPayment_eq_some hins, by rw [hamt], rfl, rfl⟩

/-! Per-operation freeze lemmas: every core operation leaves each
already-settled (non-PENDING) row untouched. -/

lemma deposit_settled (db : DB) (newId : Nat) (now : Int) (m : Merchant)
    (pd : PaymentCreate) :
    settledRowsFrozen db
      (exceptPost db (process_deposit_request db newId now m pd)) := by
  cases hr : process_deposit_request db newId now m pd with
  | error e => exact settledRowsFrozen_refl db
  | ok val =>
    obtain ⟨p, db'⟩ := val
    have hf := process_deposit_ok_facts hr
    show settledRowsFrozen db db'
    rw [hf.1]
    exact settledRowsFrozen_snoc db p

lemma withdrawal_settled (db : DB) (newId : Nat) (now : Int) (m : Merchant)
    (pd : PaymentCreate) :
    settledRowsFrozen db
      (exceptPost db (process_withdrawal_request db newId now m pd)) := by
  cases hr : process_withdrawal_request db newId now m pd with
  | error e => exact settledRowsFrozen_refl db
  | ok val =>
    obtain ⟨p, db'⟩ := val
    have hf := process_withdrawal_ok_facts hr
    show settledRowsFrozen db db'
    rw [hf.1]
    exact settledRowsFrozen_snoc db p

lemma link_settled (db : DB) (newId : Nat) (now : Int) (link : PaymentLink)
    (ci : CustomerPaymentInfo) (tok : String) :
    settledRowsFrozen db
      (linkPost db (link_process_payment db newId now link ci tok)) := by
  cases hr : link_process_payment db newId now link ci tok with
  | error e => exact settledRowsFrozen_refl db
  | ok val =>
    obtain ⟨p, link', db'⟩ := val
    have hf := link_ok_facts hr
    show settledRowsFrozen db db'
    rw [hf.1]
    exact settledRowsFrozen_snoc db p

lemma verify_payment_settled (db : DB) (pid : Nat) (utr vb : String) :
    settledRowsFrozen db (exceptPost db (verify_payment db pid utr vb)) := by
  cases hr : verify_payment db pid utr vb with
  | error e => exact settledRowsFrozen_refl db
  | ok val =>
    obtain ⟨q, db'⟩ := val
    unfold verify_payment at hr
    split at hr
    · cases hr
    · rename_i pay hfind
      split at hr
      · cases hr
      · rename_i hs
        injection hr with hr
        injection hr with h1 h2
        show settledRowsFrozen db db'
        rw [← h2]
        exact settledRowsFrozen_update db pid _ hfind (not_ne_iff.mp hs)

lemma decline_settled (db : DB) (pid : Nat) (remarks vb : String) :
    settledRowsFrozen db (exceptPost db (decline_payment db pid remarks vb)) := by
  cases hr : decline_payment db pid remarks vb with
  | error e => exact settledRowsFrozen_refl db
  | ok val =>
    obtain ⟨q, db'⟩ := val
    unfold decline_payment at hr
    split at hr
    · cases hr
    · rename_i pay hfind
      split at hr
      · cases hr
      · rename_i hs
        injection hr with hr
        injection hr with h1 h2
        show settledRowsFrozen db db'
        rw [← h2]
        exact settledRowsFrozen_update db pid _ hfind (not_ne_iff.mp hs)

lemma verify_utr_settled (db : DB) (utr : String) (pid : Nat) (vb : String) :
    settledRowsFrozen db (optionPost db (verify_utr db utr pid vb)) := by
  cases hr : verify_utr db utr pid vb with
  | none => exact settledRowsFrozen_refl db
  | some val =>
    obtain ⟨q, db'⟩ := val
    unfold verify_utr at hr
    split at hr
    · cases hr
    · rename_i pay hfind
      split at hr
      · cases hr
      · rename_i hs
        injection hr with hr
        injection hr with h1 h2
        show settledRowsFrozen db db'
        rw [← h2]
        exact settledRowsFrozen_update db pid _ hfind (not_ne_iff.mp hs)

lemma submit_utr_settled (db : DB) (pid : Nat) (utr : String) :
    settledRowsFrozen db
      (exceptPost db (submit_utr_for_payment db pid utr)) := by
  cases hr : submit_utr_for_payment db pid utr with
  | error e => exact settledRowsFrozen_refl db
  | ok val =>
    obtain ⟨q, db'⟩ := val
    unfold submit_utr_for_payment at hr
    split at hr
    · cases hr
    · rename_i pay hfind
      split at hr
      · cases hr
      · rename_i hs
        injection hr with hr
        injection hr with h1 h2
        show settledRowsFrozen db db'
        rw [← h2]
        exact settledRowsFrozen_update db pid _ hfind (not_ne_iff.mp hs)

lemma match_settled (db : DB) (now : Int) (txns : List StmtTransaction)
    (vb : String) :
    settledRowsFrozen db (match_transactions db now txns vb).2 := by
  rw [(match_transactions_facts db now txns vb).2.2]
  exact settledRowsFrozen_refl db

lemma statement_settled (ps : StatementParsers) (db : DB) (now : Int)
    (content file_type vb : String) :
    settledRowsFrozen db
      (process_statement ps db now content file_type vb).2 := by
  rw [process_statement_snd]
  exact settledRowsFrozen_refl db

/-! ## Concrete instances used by witnesses and counterexamples -/

def demoUpi : UpiDetails := { upi_id := "shop@upi", name := some "Demo Shop" }

def demoMerchant : Merchant :=
  { id := 7
    business_name := "Demo Shop"
    upi_details := some demoUpi
    bank_details := some { bank_name := some "HDFC"
                           account_name := some "Demo Shop"
                           account_number := some "1234567890"
                           ifsc_code := some "HDFC0000001" } }

def pendingRow : Payment :=
  { id := 1, merchant_id := 7, reference := "REF-1",
    trxn_hash_key := "HASH-1", payment_type := .DEPOSIT,
    payment_method := .UPI, amount := 1000,
    status := .PENDING, created_at := 0 }

def confirmedRow : Payment :=
  { pendingRow with
    id := 2
    trxn_hash_key := "HASH-2"
    status := .CONFIRMED }

def demoDB : DB :=
  { payments := [confirmedRow, pendingRow], merchants := [demoMerchant] }

def nullParsers : StatementParsers :=
  { parse_csv := fun _ => [], parse_excel := fun _ => [],
    parse_text := fun _ => [] }

/-! ## Hash lemmas -/

lemma toHexFixed_length : ∀ (k n : Nat), (toHexFixed k n).length = k := by
  intro k
  induction k with
  | zero => intro n; rfl
  | succ j ih =>
    intro n
    unfold toHexFixed
    rw [List.length_append, ih]
    rfl

lemma toHexFixed_mem_hex :
    ∀ (k n : Nat) (c : Char), c ∈ toHexFixed k n → c ∈ HEX_DIGITS := by
  intro k
  induction k with
  | zero => intro n c hc; cases hc
  | succ j ih =>
    intro n c hc
    unfold toHexFixed at hc
    rcases List.mem_append.mp hc with h | h
    · exact ih _ _ h
    · have h16 : n % 16 < 16 := Nat.mod_lt _ (by norm_num)
      rw [List.mem_singleton.mp h]
      exact List.mem_map.mpr ⟨n % 16, List.mem_range.mpr h16, rfl⟩

/-! ## Claim theorems -/

/-- C7: `transaction_hash` is a pure deterministic function of the
triple (reference, merchant_id, amount): equal inputs give equal output,
and the output is always a 64-character string over the lowercase hex
alphabet.  (`generate_transaction_hash` is modelled from the spec:
app/utils/security.py is not among the sources.) -/
theorem transaction_hash_pure_fixed_hex :
    (∀ (r₁ m₁ : String) (a₁ : Int) (r₂ m₂ : String) (a₂ : Int),
      r₁ = r₂ → m₁ = m₂ → a₁ = a₂ →
      generate_transaction_hash r₁ m₁ a₁
        = generate_transaction_hash r₂ m₂ a₂) ∧
    (∀ (r m : String) (a : Int),
      (generate_transaction_hash r m a).length = 64 ∧
      ∀ c ∈ (generate_transaction_hash r m a).toList, c ∈ HEX_DIGITS) := by
  constructor
  · intro r₁ m₁ a₁ r₂ m₂ a₂ hr hm ha
    rw [hr, hm, ha]
  · intro r m a
    constructor
    · show (String.mk (toHexFixed 64 _)).length = 64
      have hlen : ∀ l : List Char, (String.mk l).length = l.length :=
        fun _ => rfl
      rw [hlen, toHexFixed_length]
    · intro c hc
      exact toHexFixed_mem_hex 64 _ c hc

/-- C7 witness: the theorem applied at a concrete triple. -/
theorem transaction_hash_pure_fixed_hex_witness :
    generate_transaction_hash "REF-1" "7" 1000
      = generate_transaction_hash "REF-1" "7" 1000 ∧
    (generate_transaction_hash "REF-1" "7" 1000).length = 64 :=
  ⟨transaction_hash_pure_fixed_hex.1 "REF-1" "7" 1000 "REF-1" "7" 1000
      rfl rfl rfl,
   (transaction_hash_pure_fixed_hex.2 "REF-1" "7" 1000).1⟩

/-- C3: the automated statement-matching path never confirms any
payment and never changes any payment row: the call into the verifier
passes a `verification_method` keyword that `UTRVerifier.verify_utr`
does not accept, so every match attempt dies with a caught `TypeError`.
In particular, for a statement carrying a UTR with an amount equal to
that of a 30-day-old PENDING payment, the matched count is 0, the
matched list is empty, and the payment stays PENDING — contradicting the
claimed auto-confirmation. -/
theorem statement_matching_never_confirms :
    ∀ (db : DB) (now : Int) (txns : List StmtTransaction) (vb : String),
      (match_transactions db now txns vb).1.matched_count = 0 ∧
      (match_transactions db now txns vb).1.matched_payments = [] ∧
      (match_transactions db now txns vb).2 = db :=
  match_transactions_facts

/-- C4: status transitions are monotone and terminal across every core
operation: create (deposit, withdrawal and payment-link consume),
confirm (both the processor's and the verifier's path), decline,
statement matching and upload processing, and customer UTR submission
all leave every row whose status is already CONFIRMED, DECLINED or
EXPIRED completely unchanged; only a PENDING row can ever change. -/
theorem status_transitions_terminal :
    (∀ db newId now m pd, settledRowsFrozen db
        (exceptPost db (process_deposit_request db newId now m pd))) ∧
    (∀ db newId now m pd, settledRowsFrozen db
        (exceptPost db (process_withdrawal_request db newId now m pd))) ∧
    (∀ db pid utr vb, settledRowsFrozen db
        (exceptPost db (verify_payment db pid utr vb))) ∧
    (∀ db pid r vb, settledRowsFrozen db
        (exceptPost db (decline_payment db pid r vb))) ∧
    (∀ db utr pid vb, settledRowsFrozen db
        (optionPost db (verify_utr db utr pid vb))) ∧
    (∀ db now txns vb, settledRowsFrozen db
        (match_transactions db now txns vb).2) ∧
    (∀ ps db now content ftype vb, settledRowsFrozen db
        (process_statement ps db now content ftype vb).2) ∧
    (∀ db newId now link ci tok, settledRowsFrozen db
        (linkPost db (link_process_payment db newId now link ci tok))) ∧
    (∀ db pid utr, settledRowsFrozen db
        (exceptPost db (submit_utr_for_payment db pid utr))) :=
  ⟨deposit_settled, withdrawal_settled, verify_payment_settled,
   decline_settled, verify_utr_settled, match_settled, statement_settled,
   link_settled, submit_utr_settled⟩

/-- C4 witness: a confirmed row (position 0 of `demoDB`) survives a
confirm attempt on another id bit-for-bit. -/
theorem status_transitions_terminal_witness :
    (exceptPost demoDB (verify_payment demoDB 1 "UTRX" "admin")).payments.getD
        0 payment0
      = demoDB.payments.getD 0 payment0 :=
  (status_transitions_terminal.2.2.1 demoDB 1 "UTRX" "admin").2 0
    (by decide) (by decide)

/-- C1: the confirm operation (`PaymentProcessor.verify_payment` and
`UTRVerifier.verify_utr`) succeeds exactly when a payment with the given
id exists in PENDING status; on success it sets `utr_number` to the
supplied UTR, `verified_by` to the supplied actor,
`verification_method` to "MANUAL" and `status` to CONFIRMED; with no
such payment it fails with the not-found error, with a non-PENDING
payment it fails with the already-processed error (`verify_utr` returns
`None` through the corresponding two distinct branches), and on any
failure the session state — hence every field of every record — is
unchanged. -/
theorem confirm_exactly_once :
    ∀ (db : DB) (payment_id : Nat) (utr_number verified_by : String),
      (verify_payment db payment_id utr_number verified_by
          = .error .notFound ↔ db.findPayment payment_id = none) ∧
      (verify_payment db payment_id utr_number verified_by
          = .error .alreadyProcessed ↔
        ∃ p, db.findPayment payment_id = some p
          ∧ p.status ≠ PaymentStatus.PENDING) ∧
      (∀ p, db.findPayment payment_id = some p →
        p.status = PaymentStatus.PENDING →
          verify_payment db payment_id utr_number verified_by
            = .ok ({ p with
                     utr_number := some utr_number
                     verified_by := some verified_by
                     status := PaymentStatus.CONFIRMED
                     verification_method := some "MANUAL" },
                   db.updatePayment payment_id
                     { p with
                       utr_number := some utr_number
                       verified_by := some verified_by
                       status := PaymentStatus.CONFIRMED
                       verification_method := some "MANUAL" })) ∧
      (∀ e, verify_payment db payment_id utr_number verified_by = .error e →
        exceptPost db (verify_payment db payment_id utr_number verified_by)
          = db) ∧
      (verify_utr db utr_number payment_id verified_by = none ↔
        db.findPayment payment_id = none ∨
          ∃ p, db.findPayment payment_id = some p
            ∧ p.status ≠ PaymentStatus.PENDING) ∧
      (∀ p, db.findPayment payment_id = some p →
        p.status = PaymentStatus.PENDING →
          verify_utr db utr_number payment_id verified_by
            = some ({ p with
                      utr_number := some utr_number
                      status := PaymentStatus.CONFIRMED
                      verified_by := some verified_by
                      verification_method := some "MANUAL" },
                    db.updatePayment payment_id
                      { p with
                        utr_number := some utr_number
                        status := PaymentStatus.CONFIRMED
                        verified_by := some verified_by
                        verification_method := some "MANUAL" })) := by
  intro db pid utr vb
  refine ⟨?_, ?_, ?_, ?_, ?_, ?_⟩
  · constructor
    · intro h
      cases hf : db.findPayment pid with
      | none => rfl
      | some p =>
        by_cases hs : p.status = PaymentStatus.PENDING
        · simp [verify_payment, hf, hs] at h
        · simp [verify_payment, hf, hs] at h
    · intro h
      simp [verify_payment, h]
  · constructor
    · intro h
      cases hf : db.findPayment pid with
      | none => simp [verify_payment, hf] at h
      | some p =>
        by_cases hs : p.status = PaymentStatus.PENDING
        · simp [verify_payment, hf, hs] at h
        · exact ⟨p, rfl, hs⟩
    · rintro ⟨p, hf, hs⟩
      simp [verify_payment, hf, hs]
  · intro p hf hs
    simp [verify_payment, hf, hs]
  · intro e h
    rw [h]
    rfl
  · constructor
    · intro h
      cases hf : db.findPayment pid with
      | none => exact Or.inl rfl
      | some p =>
        by_cases hs : p.status = PaymentStatus.PENDING
        · simp [verify_utr, hf, hs] at h
        · exact Or.inr ⟨p, rfl, hs⟩
    · intro h
      rcases h with h | ⟨p, hf, hs⟩
      · simp [verify_utr, h]
      · simp [verify_utr, hf, hs]
  · intro p hf hs
    simp [verify_utr, hf, hs]

/-- C1 witness: the theorem applied to `demoDB`'s PENDING row. -/
theorem confirm_exactly_once_witness :
    verify_utr demoDB "UTR12345" 1 "admin"
      = some ({ pendingRow with
                utr_number := some "UTR12345"
                status := PaymentStatus.CONFIRMED
                verified_by := some "admin"
                verification_method := some "MANUAL" },
              demoDB.updatePayment 1
                { pendingRow with
                  utr_number := some "UTR12345"
                  status := PaymentStatus.CONFIRMED
                  verified_by := some "admin"
                  verification_method := some "MANUAL" }) :=
  (confirm_exactly_once demoDB 1 "UTR12345" "admin").2.2.2.2.2 pendingRow
    (by decide) rfl

/-! Observations of a single row, used by concrete counterexamples. -/

def utrAt (db : DB) (pid : Nat) : Option (Option String) :=
  (db.findPayment pid).map (fun p => p.utr_number)

def statusAt (db : DB) (pid : Nat) : Option PaymentStatus :=
  (db.findPayment pid).map (fun p => p.status)

def vmethodAt (db : DB) (pid : Nat) : Option (Option String) :=
  (db.findPayment pid).map (fun p => p.verification_method)

def dbAfterSubmitA : DB :=
  exceptPost demoDB (submit_utr_for_payment demoDB 1 "UTR-A")

def dbAfterSubmitB : DB :=
  exceptPost dbAfterSubmitA (submit_utr_for_payment dbAfterSubmitA 1 "UTR-B")

/-- C5 counterexample: `submit_utr_for_payment` assigns `utr_number` on
a PENDING payment without any verification (status stays PENDING,
`verification_method` stays null), and a second submission assigns it
again, overwriting the first — so `utr_number` is neither set at most
once nor set only by a successful verification. -/
theorem utr_assigned_twice_without_verification :
    utrAt demoDB 1 = some none ∧
    utrAt dbAfterSubmitA 1 = some (some "UTR-A") ∧
    statusAt dbAfterSubmitA 1 = some PaymentStatus.PENDING ∧
    vmethodAt dbAfterSubmitA 1 = some none ∧
    utrAt dbAfterSubmitB 1 = some (some "UTR-B") ∧
    statusAt dbAfterSubmitB 1 = some PaymentStatus.PENDING := by
  decide

/-- C5 amended: while a payment is PENDING, `utr_number` may be
assigned by customer UTR submission (which leaves the status PENDING
and may overwrite an earlier submission) as well as by a successful
verification; but once the payment's status leaves PENDING, the fields
`utr_number`, `verified_by` and `verification_method` are never
modified by any subsequent core operation. -/
theorem utr_fields_frozen_after_pending :
    ((∀ db newId now m pd, utrFieldsFrozen db
        (exceptPost db (process_deposit_request db newId now m pd))) ∧
     (∀ db newId now m pd, utrFieldsFrozen db
        (exceptPost db (process_withdrawal_request db newId now m pd))) ∧
     (∀ db pid utr vb, utrFieldsFrozen db
        (exceptPost db (verify_payment db pid utr vb))) ∧
     (∀ db pid r vb, utrFieldsFrozen db
        (exceptPost db (decline_payment db pid r vb))) ∧
     (∀ db utr pid vb, utrFieldsFrozen db
        (optionPost db (verify_utr db utr pid vb))) ∧
     (∀ db now txns vb, utrFieldsFrozen db
        (match_transactions db now txns vb).2) ∧
     (∀ ps db now content ftype vb, utrFieldsFrozen db
        (process_statement ps db now content ftype vb).2) ∧
     (∀ db newId now link ci tok, utrFieldsFrozen db
        (linkPost db (link_process_payment db newId now link ci tok))) ∧
     (∀ db pid utr, utrFieldsFrozen db
        (exceptPost db (submit_utr_for_payment db pid utr)))) ∧
    (∀ db pid utr p, db.findPayment pid = some p →
      p.status = PaymentStatus.PENDING →
      submit_utr_for_payment db pid utr
        = .ok ({ p with
                 utr_number := some utr
                 remarks := some "UTR number submitted by customer, awaiting verification" },
               db.updatePayment pid
                 { p with
                   utr_number := some utr
                   remarks := some "UTR number submitted by customer, awaiting verification" })) := by
  constructor
  · exact ⟨fun db newId now m pd => (deposit_settled db newId now m pd).utrFields,
      fun db newId now m pd => (withdrawal_settled db newId now m pd).utrFields,
      fun db pid utr vb => (verify_payment_settled db pid utr vb).utrFields,
      fun db pid r vb => (decline_settled db pid r vb).utrFields,
      fun db utr pid vb => (verify_utr_settled db utr pid vb).utrFields,
      fun db now txns vb => (match_settled db now txns vb).utrFields,
      fun ps db now content ftype vb =>
        (statement_settled ps db now content ftype vb).utrFields,
      fun db newId now link ci tok =>
        (link_settled db newId now link ci tok).utrFields,
      fun db pid utr => (submit_utr_settled db pid utr).utrFields⟩
  · intro db pid utr p hf hs
    simp [submit_utr_for_payment, hf, hs]

/-- C5 witness: the amended theorem applied at `demoDB` — the submit
path on the PENDING row, and the freeze of the CONFIRMED row's
`utr_number` under a confirm attempt. -/
theorem utr_fields_frozen_after_pending_witness :
    submit_utr_for_payment demoDB 1 "UTR-A"
      = .ok ({ pendingRow with
               utr_number := some "UTR-A"
               remarks := some "UTR number submitted by customer, awaiting verification" },
             demoDB.updatePayment 1
               { pendingRow with
                 utr_number := some "UTR-A"
                 remarks := some "UTR number submitted by customer, awaiting verification" }) ∧
    ((exceptPost demoDB (verify_payment demoDB 1 "X" "a")).payments.getD
        0 payment0).utr_number
      = (demoDB.payments.getD 0 payment0).utr_number :=
  ⟨utr_fields_frozen_after_pending.2 demoDB 1 "UTR-A" pendingRow
      (by decide) rfl,
   (utr_fields_frozen_after_pending.1.2.2.1 demoDB 1 "X" "a" 0
      (by decide) (by decide)).1⟩

/-- C6: merchant amount bounds are inclusive at both ends: an amount
equal to `min_deposit` or `max_deposit` passes the bound check and a
PENDING payment row is appended (given the merchant's UPI configuration
for the UPI route and a fresh transaction hash), while an amount one
unit below `min_deposit` or one unit above `max_deposit` fails with the
amount-range `ValueError` and no state is produced; likewise for the
withdrawal bounds. -/
theorem merchant_bounds_inclusive :
    (∀ db newId now m (pd : PaymentCreate) ud,
      m.upi_details = some ud →
      (strTruthy pd.bank && strTruthy pd.account_number) = false →
      (∀ q ∈ db.payments, q.trxn_hash_key
        ≠ generate_transaction_hash pd.reference (toString m.id) pd.amount) →
      m.min_deposit ≤ m.max_deposit →
      (pd.amount = m.min_deposit ∨ pd.amount = m.max_deposit) →
      ∃ p db', process_deposit_request db newId now m pd = .ok (p, db')
        ∧ p.status = PaymentStatus.PENDING
        ∧ db'.payments = db.payments ++ [p]) ∧
    (∀ db newId now m (pd : PaymentCreate),
      (pd.amount = m.min_deposit - 1 ∨ pd.amount = m.max_deposit + 1) →
      process_deposit_request db newId now m pd
        = .error .amountOutOfRange) ∧
    (∀ db newId now m (pd : PaymentCreate),
      strTruthy pd.account_name = true → strTruthy pd.account_number = true →
      strTruthy pd.bank = true → strTruthy pd.bank_ifsc = true →
      (∀ q ∈ db.payments, q.trxn_hash_key
        ≠ generate_transaction_hash pd.reference (toString m.id) pd.amount) →
      m.min_withdrawal ≤ m.max_withdrawal →
      (pd.amount = m.min_withdrawal ∨ pd.amount = m.max_withdrawal) →
      ∃ p db', process_withdrawal_request db newId now m pd = .ok (p, db')
        ∧ p.status = PaymentStatus.PENDING
        ∧ db'.payments = db.payments ++ [p]) ∧
    (∀ db newId now m (pd : PaymentCreate),
      (pd.amount = m.min_withdrawal - 1 ∨ pd.amount = m.max_withdrawal + 1) →
      process_withdrawal_request db newId now m pd
        = .error .amountOutOfRange) := by
  refine ⟨?_, ?_, ?_, ?_⟩
  · intro db newId now m pd ud hud hm hfresh hle hamt
    have h1 : ¬(pd.amount < m.min_deposit) := by rcases hamt with h | h <;> omega
    have h2 : ¬(pd.amount > m.max_deposit) := by rcases hamt with h | h <;> omega
    have hno : (db.payments.any (fun q => q.trxn_hash_key
        == generate_transaction_hash pd.reference (toString m.id) pd.amount))
        = false := by
      rw [List.any_eq_false]
      intro q hq
      simpa using hfresh q hq
    simp only [process_deposit_request, DB.insertPayment, h1, h2, hm, hud,
      hno, decide_False, Bool.or_self, Bool.false_or, Bool.or_false,
      Bool.false_eq_true, if_false, ite_false, ite_true, not_false_eq_true]
    exact ⟨_, _, rfl, rfl, rfl⟩
  · intro db newId now m pd hamt
    rcases hamt with h | h
    · have h1 : pd.amount < m.min_deposit := by omega
      simp [process_deposit_request, h1]
    · have h2 : pd.amount > m.max_deposit := by omega
      simp [process_deposit_request, h2]
  · intro db newId now m pd han hac hb hbi hfresh hle hamt
    have h1 : ¬(pd.amount < m.min_withdrawal) := by rcases hamt with h | h <;> omega
    have h2 : ¬(pd.amount > m.max_withdrawal) := by rcases hamt with h | h <;> omega
    have hno : (db.payments.any (fun q => q.trxn_hash_key
        == generate_transaction_hash pd.reference (toString m.id) pd.amount))
        = false := by
      rw [List.any_eq_false]
      intro q hq
      simpa using hfresh q hq
    simp only [process_withdrawal_request, DB.insertPayment, h1, h2,
      han, hac, hb, hbi, hno, decide_False, Bool.not_true, Bool.or_self,
      Bool.false_or, Bool.or_false, Bool.false_eq_true, if_false,
      ite_false, ite_true, not_false_eq_true]
    exact ⟨_, _, rfl, rfl, rfl⟩
  · intro db newId now m pd hamt
    rcases hamt with h | h
    · have h1 : pd.amount < m.min_withdrawal := by omega
      simp [process_withdrawal_request, h1]
    · have h2 : pd.amount > m.max_withdrawal := by omega
      simp [process_withdrawal_request, h2]

/-- C6 witness: the four parts of the theorem at `demoMerchant`
(bounds 500..300000 for deposits, 1000..1000000 for withdrawals). -/
theorem merchant_bounds_inclusive_witness :
    (∃ p db', process_deposit_request demoDB 30 0 demoMerchant
        { reference := "B-MIN", amount := 500 } = .ok (p, db')
      ∧ p.status = PaymentStatus.PENDING
      ∧ db'.payments = demoDB.payments ++ [p]) ∧
    process_deposit_request demoDB 31 0 demoMerchant
        { reference := "B-LOW", amount := 499 }
      = .error .amountOutOfRange ∧
    (∃ p db', process_withdrawal_request demoDB 32 0 demoMerchant
        { reference := "W-MAX", amount := 1000000,
          account_name := some "A", account_number := some "9",
          bank := some "HDFC", bank_ifsc := some "H1" } = .ok (p, db')
      ∧ p.status = PaymentStatus.PENDING
      ∧ db'.payments = demoDB.payments ++ [p]) ∧
    process_withdrawal_request demoDB 33 0 demoMerchant
        { reference := "W-HIGH", amount := 1000001 }
      = .error .amountOutOfRange :=
  ⟨merchant_bounds_inclusive.1 demoDB 30 0 demoMerchant _ demoUpi rfl
      (by decide) (by decide) (by decide) (Or.inl (by decide)),
   merchant_bounds_inclusive.2.1 demoDB 31 0 demoMerchant _
      (Or.inl (by decide)),
   merchant_bounds_inclusive.2.2.1 demoDB 32 0 demoMerchant _
      (by decide) (by decide) (by decide) (by decide) (by decide)
      (by decide) (Or.inr (by decide)),
   merchant_bounds_inclusive.2.2.2 demoDB 33 0 demoMerchant _
      (Or.inr (by decide))⟩

def okDepositMethod : Except CreateError (Payment × DB) → Option PaymentMethod
  | .ok (p, _) => some p.payment_method
  | .error _ => none

def merchantNoUpi : Merchant := { id := 8, business_name := "NoUpi Shop" }

def depositBankPd : PaymentCreate :=
  { reference := "DB-1", amount := 1000,
    account_number := some "999", bank := some "ICICI" }

def depositUpiPd : PaymentCreate := { reference := "DU-1", amount := 1000 }

/-- C10: a deposit payment is classified BANK_TRANSFER exactly when the
request carries both a (truthy) bank name and account number; in every
other case it is classified UPI, and the UPI route then demands the
merchant's UPI details, failing with the corresponding `ValueError`
(before any row is inserted) when they are absent. -/
theorem deposit_method_classification :
    (∀ db newId now m pd p db',
      process_deposit_request db newId now m pd = .ok (p, db') →
      (p.payment_method = PaymentMethod.BANK_TRANSFER ↔
        (strTruthy pd.bank && strTruthy pd.account_number) = true) ∧
      (p.payment_method = PaymentMethod.UPI ↔
        (strTruthy pd.bank && strTruthy pd.account_number) = false)) ∧
    (∀ db newId now m pd,
      (strTruthy pd.bank && strTruthy pd.account_number) = false →
      m.upi_details = none →
      ¬(pd.amount < m.min_deposit) → ¬(pd.amount > m.max_deposit) →
      process_deposit_request db newId now m pd
        = .error .upiNotConfigured) := by
  constructor
  · intro db newId now m pd p db' h
    have hbt := (process_deposit_ok_facts h).2.2.2.2.1
    refine ⟨hbt, ?_, ?_⟩
    · intro hupi
      cases hcond : (strTruthy pd.bank && strTruthy pd.account_number) with
      | false => rfl
      | true =>
        rw [hbt.mpr hcond] at hupi
        cases hupi
    · intro hcond
      cases hmp : p.payment_method with
      | UPI => rfl
      | BANK_TRANSFER =>
        have := hbt.mp hmp
        rw [hcond] at this
        exact Bool.noConfusion this
  · intro db newId now m pd hm hud h1 h2
    simp [process_deposit_request, h1, h2, hm, hud]

/-- C10 witness: the theorem applied to a bank-route request against the
configured merchant, and to a UPI-route request against a merchant with
no UPI details. -/
theorem deposit_method_classification_witness :
    okDepositMethod (process_deposit_request demoDB 12 0 demoMerchant
        depositBankPd) = some PaymentMethod.BANK_TRANSFER ∧
    process_deposit_request demoDB 11 0 merchantNoUpi depositUpiPd
      = .error .upiNotConfigured := by
  constructor
  · cases hr : process_deposit_request demoDB 12 0 demoMerchant depositBankPd with
    | error e =>
      have hok : isOkB (process_deposit_request demoDB 12 0 demoMerchant
          depositBankPd) = true := by decide
      rw [hr] at hok
      exact Bool.noConfusion hok
    | ok val =>
      obtain ⟨p, db'⟩ := val
      have hiff := (deposit_method_classification.1 demoDB 12 0 demoMerchant
        depositBankPd p db' hr).1
      have hm : p.payment_method = PaymentMethod.BANK_TRANSFER :=
        hiff.mpr (by decide)
      show some p.payment_method = some PaymentMethod.BANK_TRANSFER
      rw [hm]
  · exact deposit_method_classification.2 demoDB 11 0 merchantNoUpi
      depositUpiPd (by decide) rfl (by decide) (by decide)

/-- C9: `process_statement` rejects a genuinely unrecognised content
type with an explicit failure naming the offending type — but any
content type containing "pdf" is routed to the stub `_parse_pdf`, which
always returns zero transactions, so a PDF upload silently reports
success with zero extracted transactions no matter what the file
contains, contradicting the claim's "zero-transaction success occurs
only when the input genuinely contains no transactions". -/
theorem statement_pdf_silent_zero_success :
    (∀ ps db now (content vb : String),
      (process_statement ps db now content "application/pdf" vb).1
        = { success := true, error := none, total_transactions := some 0,
            matchesCount := 0, matched_payments := [],
            unmatched_transactions := [] } ∧
      (process_statement ps db now content "application/pdf" vb).2 = db) ∧
    (∀ ps db now (content ftype vb : String),
      (ftype == "text/csv") = false →
      strContains ftype "excel" = false →
      strContains ftype "spreadsheet" = false →
      (ftype == "text/plain") = false →
      strContains ftype "pdf" = false →
      process_statement ps db now content ftype vb
        = ({ success := false,
             error := some ("Unsupported file type: " ++ ftype),
             matchesCount := 0 }, db)) := by
  constructor
  · intro ps db now content vb
    exact ⟨rfl, rfl⟩
  · intro ps db now content ftype vb h1 h2 h3 h4 h5
    simp [process_statement, h1, h2, h3, h4, h5]

/-- C9 witness: the explicit-failure part applied at a concrete
unsupported content type. -/
theorem statement_pdf_silent_zero_success_witness :
    process_statement nullParsers demoDB 0 "some body" "image/png" "admin"
      = ({ success := false,
           error := some ("Unsupported file type: " ++ "image/png"),
           matchesCount := 0 }, demoDB) :=
  statement_pdf_silent_zero_success.2 nullParsers demoDB 0 "some body"
    "image/png" "admin" rfl rfl rfl rfl rfl

def okLinkAmount :
    Except LinkPaymentError (Payment × PaymentLink × DB) → Option Int
  | .ok (p, _, _) => some p.amount
  | .error _ => none

def demoLink : PaymentLink :=
  { id := 3, merchant_id := 7, unique_code := "ABCDEFGH23",
    amount := some 50000 }

def demoCustomer : CustomerPaymentInfo :=
  { custom_amount := some 60000, payment_method := "UPI" }

/-- C8 counterexample: on a link with the fixed amount 50000, a
customer-supplied custom amount of 60000 produces a Payment of amount
60000 — the customer amount overrides the link's non-null amount,
contrary to the claim. -/
theorem link_amount_override_counterexample :
    demoLink.amount = some 50000 ∧
    demoCustomer.custom_amount = some 60000 ∧
    okLinkAmount (link_process_payment demoDB 40 0 demoLink demoCustomer
        "ff00aa11") = some 60000 := by
  refine ⟨rfl, rfl, ?_⟩
  decide

/-- C8 amended: the effective payment amount is the customer-specified
amount whenever one is supplied and nonzero (Python truthiness); the
link's own amount is used only when the customer supplies none — so a
link's non-null fixed amount is overridden by any truthy custom
amount. -/
theorem link_amount_customer_overrides :
    ∀ db newId now link ci tok p link' db',
      link_process_payment db newId now link ci tok = .ok (p, link', db') →
      some p.amount
        = (if intTruthy ci.custom_amount then ci.custom_amount
           else link.amount) :=
  fun _ _ _ _ _ _ _ _ _ h => (link_ok_facts h).2.1

/-- C8 witness: the amended theorem applied at the demo link and
customer. -/
theorem link_amount_customer_overrides_witness :
    some (60000 : Int)
      = (if intTruthy demoCustomer.custom_amount
         then demoCustomer.custom_amount else demoLink.amount) := by
  cases hr : link_process_payment demoDB 40 0 demoLink demoCustomer
      "ff00aa11" with
  | error e =>
    have hok : isOkB (link_process_payment demoDB 40 0 demoLink demoCustomer
        "ff00aa11") = true := by decide
    rw [hr] at hok
    exact Bool.noConfusion hok
  | ok val =>
    obtain ⟨p, link', db'⟩ := val
    have hmain := link_amount_customer_overrides demoDB 40 0 demoLink
      demoCustomer "ff00aa11" p link' db' hr
    have h60 : okLinkAmount (link_process_payment demoDB 40 0 demoLink
        demoCustomer "ff00aa11") = some 60000 := by decide
    rw [hr] at h60
    have hp : p.amount = 60000 := by
      have : some p.amount = some (60000 : Int) := h60
      exact Option.some.inj this
    rw [hp] at hmain
    exact hmain

def pdC2 : PaymentCreate := { reference := "ORDER-1", amount := 1000 }

def dbC2a : DB :=
  exceptPost demoDB (process_deposit_request demoDB 21 0 demoMerchant pdC2)

/-- C2 counterexample: the first create call succeeds and persists one
row; the second call with the identical (reference, merchant, amount)
triple does not return the existing record — it surfaces the
uniqueness-constraint violation on `trxn_hash_key` as an error. -/
theorem duplicate_create_errors_counterexample :
    isOkB (process_deposit_request demoDB 21 0 demoMerchant pdC2) = true ∧
    dbC2a.payments.length = demoDB.payments.length + 1 ∧
    process_deposit_request dbC2a 22 5 demoMerchant pdC2
      = .error .duplicateHash := by
  refine ⟨by decide, by decide, rfl⟩

/-- C2 amended: creation is deduplicated on the transaction hash — two
identical create calls persist exactly one row — but the second call
does not return the first call's record: it raises the integrity error
of the unique `trxn_hash_key` constraint, which the creation paths do
not catch. -/
theorem create_duplicate_surfaces_error :
    (∀ db newId now m pd p db1 newId' now',
      process_deposit_request db newId now m pd = .ok (p, db1) →
      db1.payments = db.payments ++ [p] ∧
      process_deposit_request db1 newId' now' m pd
        = .error .duplicateHash) ∧
    (∀ db newId now m pd p db1 newId' now',
      process_withdrawal_request db newId now m pd = .ok (p, db1) →
      db1.payments = db.payments ++ [p] ∧
      process_withdrawal_request db1 newId' now' m pd
        = .error .duplicateHash) := by
  constructor
  · intro db newId now m pd p db1 newId' now' h
    obtain ⟨hshape, hhash, hst, hamt, hiff, hb1, hb2, hbank, hupi⟩ :=
      process_deposit_ok_facts h
    have hmem : p ∈ db1.payments := by rw [hshape]; simp
    constructor
    · rw [hshape]
    · by_cases hm : (strTruthy pd.bank && strTruthy pd.account_number) = true
      · obtain ⟨bd, hbd⟩ := Option.isSome_iff_exists.mp (hbank hm)
        simp only [process_deposit_request, hb1, hb2, hm, hbd,
          decide_False, Bool.false_or, Bool.or_false, if_true, if_false,
          decide_not, Bool.not_false, Bool.not_true, ite_true, ite_false,
          Bool.false_eq_true, not_false_eq_true]
        split
        · rfl
        · rename_i db2 hins
          unfold DB.insertPayment at hins
          split at hins
          · cases hins
          · rename_i hany
            exact absurd (List.any_eq_true.mpr ⟨p, hmem, by simp [hhash]⟩)
              hany
      · have hm' : (strTruthy pd.bank && strTruthy pd.account_number)
            = false := Bool.eq_false_iff.mpr hm
        obtain ⟨ud, hud⟩ := Option.isSome_iff_exists.mp (hupi hm')
        simp only [process_deposit_request, hb1, hb2, hm', hud,
          decide_False, Bool.false_or, Bool.or_false, if_true, if_false,
          decide_not, Bool.not_false, Bool.not_true, ite_true, ite_false,
          Bool.false_eq_true, not_false_eq_true]
        split
        · rfl
        · rename_i db2 hins
          unfold DB.insertPayment at hins
          split at hins
          · cases hins
          · rename_i hany
            exact absurd (List.any_eq_true.mpr ⟨p, hmem, by simp [hhash]⟩)
              hany
  · intro db newId now m pd p db1 newId' now' h
    obtain ⟨hshape, hhash, hst, hamt, hb1, hb2, hv'⟩ :=
      process_withdrawal_ok_facts h
    have hmem : p ∈ db1.payments := by rw [hshape]; simp
    constructor
    · rw [hshape]
    · simp only [process_withdrawal_request, hb1, hb2, hv',
        decide_False, Bool.false_or, Bool.or_false, if_true, if_false,
        ite_true, ite_false, Bool.false_eq_true, not_false_eq_true]
      split
      · rfl
      · rename_i db2 hins
        unfold DB.insertPayment at hins
        split at hins
        · cases hins
        · rename_i hany
          exact absurd (List.any_eq_true.mpr ⟨p, hmem, by simp [hhash]⟩)
            hany

/-- C2 witness: the amended theorem applied to the concrete double
call. -/
theorem create_duplicate_surfaces_error_witness :
    process_deposit_request dbC2a 22 5 demoMerchant pdC2
      = .error .duplicateHash := by
  cases hr : process_deposit_request demoDB 21 0 demoMerchant pdC2 with
  | error e =>
    have hok : isOkB (process_deposit_request demoDB 21 0 demoMerchant pdC2)
        = true := by decide
    rw [hr] at hok
    exact Bool.noConfusion hok
  | ok val =>
    obtain ⟨p, db1⟩ := val
    have h := (create_duplicate_surfaces_error.1 demoDB 21 0 demoMerchant
      pdC2 p db1 22 5 hr).2
    show process_deposit_request
        (exceptPost demoDB (process_deposit_request demoDB 21 0 demoMerchant
          pdC2)) 22 5 demoMerchant pdC2 = .error .duplicateHash
    rw [hr]
    exact h

end PaymentSystem
